import Mathlib

set_option maxRecDepth 100000

/-!
Verification of the shader cross-compilation pipeline of OnlineMaterialLibrary
(`server/index.cjs`) against its natural-language specification.

The server is Node.js code; its text transformations are built from a fixed,
small set of JavaScript regular expressions and string primitives.  Each of
those concrete patterns is embedded here as a dedicated scanner over `List
Char`, with JavaScript's leftmost-match / global-replace conventions made
explicit.  All definitions are executable, so claims can be settled on
concrete inputs by evaluation.
-/

namespace OML

/-- Left brace character, kept out of string literals. -/
def lbrace : Char := Char.ofNat 123

/-- Right brace character, kept out of string literals. -/
def rbrace : Char := Char.ofNat 125

/-- JavaScript regex class `\s` on the ASCII range relevant to tool output. -/
def isJsSpace (c : Char) : Bool :=
  c == ' ' || c == '\t' || c == '\n' || c == '\r' || c == '\x0b' || c == '\x0c'

/-- JavaScript regex class `\d`. -/
def isJsDigit (c : Char) : Bool :=
  '0' ≤ c && c ≤ '9'

/-- JavaScript regex class `\w` (used for `\b` word boundaries and `(?!\w)`). -/
def isJsWord (c : Char) : Bool :=
  ('a' ≤ c && c ≤ 'z') || ('A' ≤ c && c ≤ 'Z') || isJsDigit c || c == '_'

/-- Consume an exact literal character sequence, returning the rest. -/
def dropLit : List Char → List Char → Option (List Char)
  | [], s => some s
  | _ :: _, [] => none
  | p :: ps, c :: cs => if c == p then dropLit ps cs else none

/-- Consume a literal given as a `String`. -/
def dropLitS (lit : String) (s : List Char) : Option (List Char) :=
  dropLit lit.data s

/-- ASCII lower-casing, for the `/i` regex flag. -/
def lowerAscii (c : Char) : Char :=
  if 'A' ≤ c && c ≤ 'Z' then Char.ofNat (c.toNat + 32) else c

/-- Consume a literal case-insensitively (the literal is given lowercase). -/
def dropLitCI : List Char → List Char → Option (List Char)
  | [], s => some s
  | _ :: _, [] => none
  | p :: ps, c :: cs => if lowerAscii c == p then dropLitCI ps cs else none

/-- Consume one expected character. -/
def expectChar (a : Char) : List Char → Option (List Char)
  | [] => none
  | c :: cs => if c == a then some cs else none

/-- Greedy `\s*`. -/
def dropSpaces (s : List Char) : List Char :=
  s.dropWhile isJsSpace

/-- Greedy `\s+` (at least one whitespace character). -/
def dropSpaces1 : List Char → Option (List Char)
  | [] => none
  | c :: cs => if isJsSpace c then some (dropSpaces cs) else none

/-- Greedy `\d+` with the captured digits. -/
def takeDigits1 (s : List Char) : Option (List Char × List Char) :=
  match s.span isJsDigit with
  | ([], _) => none
  | (ds, rest) => some (ds, rest)

/-- Value of a digit string, as computed by JavaScript `parseInt`. -/
def natOfDigits (ds : List Char) : Nat :=
  ds.foldl (fun n c => n * 10 + (c.toNat - 48)) 0

/-- JavaScript `String.prototype.trim` (ASCII whitespace). -/
def trimL (s : List Char) : List Char :=
  ((s.dropWhile isJsSpace).reverse.dropWhile isJsSpace).reverse

/-- JavaScript `trim` on `String`. -/
def trimStr (s : String) : String :=
  ⟨trimL s.data⟩

/-- JavaScript `split('\n')` over a character list. -/
def splitNlL : List Char → List (List Char)
  | [] => [[]]
  | c :: cs =>
    let r := splitNlL cs
    if c == '\n' then [] :: r
    else
      match r with
      | h :: t => (c :: h) :: t
      | [] => [[c]]

/-- JavaScript `split('\n')` on `String`. -/
def splitNl (s : String) : List String :=
  (splitNlL s.data).map (fun l => ⟨l⟩)

/-- JavaScript `join('\n')`. -/
def joinNlL : List (List Char) → List Char
  | [] => []
  | [l] => l
  | l :: ls => l ++ '\n' :: joinNlL ls

/-- Scan for the leftmost position at which a matcher succeeds. -/
def scanFirst {α : Type} (m : List Char → Option α) : Nat → List Char → Option α
  | 0, _ => none
  | fuel + 1, s =>
    match m s with
    | some a => some a
    | none =>
      match s with
      | [] => none
      | _ :: cs => scanFirst m fuel cs

/-- Global regex replace: at each position try the one-step matcher, which
returns the replacement text, the last character of the matched text (needed
for later `\b` checks), and the rest of the input after the match; on failure
advance one character.  All patterns in the server match at least one
character, so fuel equal to the input length suffices. -/
def gsub (step : Option Char → List Char → Option (List Char × Char × List Char)) :
    Nat → Option Char → List Char → List Char
  | 0, _, s => s
  | _, _, [] => []
  | fuel + 1, prev, c :: cs =>
    match step prev (c :: cs) with
    | some (repl, lastc, rest) => repl ++ gsub step fuel (some lastc) rest
    | none => c :: gsub step fuel (some c) cs

/-- Run a global replace over a `String`. -/
def gsubStr (step : Option Char → List Char → Option (List Char × Char × List Char))
    (s : String) : String :=
  ⟨gsub step (s.data.length + 1) none s.data⟩

/-- Replace only the first match (JavaScript `replace` without the `g` flag,
or with a plain string pattern). -/
def sub1 (step : List Char → Option (List Char × List Char)) :
    Nat → List Char → List Char
  | 0, s => s
  | _, [] => []
  | fuel + 1, c :: cs =>
    match step (c :: cs) with
    | some (repl, rest) => repl ++ rest
    | none => c :: sub1 step fuel cs

/-- Step matcher for a plain literal pattern replaced by a fixed string. -/
def litStep (pat repl : String) (_prev : Option Char) (s : List Char) :
    Option (List Char × Char × List Char) :=
  match dropLitS pat s with
  | some rest =>
    match pat.data.getLast? with
    | some lc => some (repl.data, lc, rest)
    | none => none
  | none => none

/-- JavaScript `code.replace(/pat/g, repl)` for a literal pattern. -/
def replaceAll (s pat repl : String) : String :=
  gsubStr (litStep pat repl) s

/-- Split a character list at the first occurrence of a literal, returning the
text before the occurrence and the text after it. -/
def findSplit (pat : List Char) : Nat → List Char → Option (List Char × List Char)
  | 0, _ => none
  | fuel + 1, s =>
    match dropLit pat s with
    | some rest => some ([], rest)
    | none =>
      match s with
      | [] => none
      | c :: cs =>
        match findSplit pat fuel cs with
        | some (b, a) => some (c :: b, a)
        | none => none

/-- Split at the last occurrence of a character, returning the text before it
and the text after it. -/
def lastSplitAt (target : Char) : List Char → Option (List Char × List Char)
  | [] => none
  | c :: cs =>
    match lastSplitAt target cs with
    | some (b, a) => some (c :: b, a)
    | none => if c == target then some ([], cs) else none

/-- Does a string contain a literal substring? -/
def hasSub (s pat : String) : Bool :=
  (findSplit pat.data (s.data.length + 1) s.data).isSome

/-- Count of newline characters in a string; for a wrapper header this is the
number of newline-terminated lines preceding the first user-code line. -/
def newlineCount (s : String) : Nat :=
  (s.data.filter (fun c => c == '\n')).length

/-- The 1-based n-th line of a string, under JavaScript `split('\n')`. -/
def lineAt (s : String) (n : Nat) : Option String :=
  (splitNl s).get? (n - 1)

/-! ## Wrapper templates (`server/index.cjs` lines 18-34, 37-75, 254-295, 298-330)

The template literals are transcribed byte-for-byte from the source; `\x7b`
and `\x7d` are the brace characters and `\x2d` is the dash character. -/

/-- Header of the GLSL fragment wrapper of `wrapUserCodeForSpirv`. -/
def spirvWrapPre : String :=
  "#version 450\n\nlayout(location = 0) in vec2 vUv;\nlayout(location = 1) in vec3 vNormal;\nlayout(location = 2) in vec3 vPosition;\n\nlayout(location = 0) out vec4 outFragColor;\n\nlayout(binding = 0) uniform Uniforms \x7b\n  vec2 uResolution;\n  float uTime;\n  float uTimeDelta;\n  float uFrame;\n  float uFrameRate;\n\x7d;\n\nvoid main() \x7b\n  // Pre-defined variables for user convenience (aligned with ShaderToy naming)\n  vec2 iResolution = uResolution;\n  float iTime = uTime;\n  float iTimeDelta = uTimeDelta;\n  float iFrame = uFrame;\n  float iFrameRate = uFrameRate;\n  vec2 iUV = vUv;\n  vec3 iNormal = vNormal;\n  vec3 iPosition = vPosition;\n\n  // Default output (vec4 RGBA)\n  vec4 fragColor = vec4(1.0);\n\n  // \x2d\x2d\x2d\x2d USER CODE START \x2d\x2d\x2d\x2d\n  "

/-- Trailer of the GLSL fragment wrapper of `wrapUserCodeForSpirv`. -/
def spirvWrapSuf : String :=
  "\n  // \x2d\x2d\x2d\x2d USER CODE END \x2d\x2d\x2d\x2d\n\n  outFragColor = fragColor;\n\x7d\n"

/-- `wrapUserCodeForSpirv` (lines 37-75). -/
def wrapUserCodeForSpirv (userCode : String) : String :=
  spirvWrapPre ++ userCode ++ spirvWrapSuf

/-- The fixed vertex shader constant `VERTEX_SHADER` (lines 18-34). -/
def VERTEX_SHADER : String :=
  "#version 450\n\nlayout(location = 0) in vec3 position;\nlayout(location = 1) in vec3 normal;\nlayout(location = 2) in vec2 uv;\n\nlayout(location = 0) out vec2 vUv;\nlayout(location = 1) out vec3 vNormal;\nlayout(location = 2) out vec3 vPosition;\n\nvoid main() \x7b\n  vUv = uv;\n  vNormal = normalize(normal);\n  vPosition = position;\n  gl_Position = vec4(position, 1.0);\n\x7d\n"

/-- Header of the Slang material-library wrapper of `wrapUserCodeForSlang`. -/
def slangMaterialPre : String :=
  "// Slang Fragment Shader - Material Library Mode\n\n// Uniforms\nuniform float2 uResolution;\nuniform float uTime;\nuniform float uTimeDelta;\nuniform float uFrame;\nuniform float uFrameRate;\n\n// Varyings from vertex shader\nstruct VSInput\n\x7b\n    float2 uv : TEXCOORD0;\n    float3 normal : NORMAL;\n    float3 position : TEXCOORD1;\n\x7d;\n\n[shader(\"fragment\")]\nfloat4 fragmentMain(VSInput input) : SV_Target\n\x7b\n    // Pre-defined variables for user convenience\n    float2 iResolution = uResolution;\n    float iTime = uTime;\n    float iTimeDelta = uTimeDelta;\n    float iFrame = uFrame;\n    float iFrameRate = uFrameRate;\n    float2 iUV = input.uv;\n    float3 iNormal = input.normal;\n    float3 iPosition = input.position;\n\n    // Default output\n    float4 fragColor = float4(1.0, 1.0, 1.0, 1.0);\n\n    // \x2d\x2d\x2d\x2d USER CODE START (line 36) \x2d\x2d\x2d\x2d\n"

/-- Trailer of the Slang material-library wrapper of `wrapUserCodeForSlang`. -/
def slangMaterialSuf : String :=
  "\n    // \x2d\x2d\x2d\x2d USER CODE END \x2d\x2d\x2d\x2d\n\n    return fragColor;\n\x7d\n"

/-- `wrapUserCodeForSlang` (lines 254-295). -/
def wrapUserCodeForSlang (userCode : String) : String :=
  slangMaterialPre ++ userCode ++ slangMaterialSuf

/-- Header of the Slang ShaderToy wrapper of `wrapUserCodeForSlangShaderToy`. -/
def slangShaderToyPre : String :=
  "// Slang Fragment Shader - ShaderToy Mode\n\n// Uniforms\nuniform float3 iResolution;\nuniform float iTime;\nuniform float iTimeDelta;\nuniform float iFrame;\nuniform float iFrameRate;\n\n// Varyings\nstruct VSInput\n\x7b\n    float2 uv : TEXCOORD0;\n\x7d;\n\n// Forward declaration for mainImage\nvoid mainImage(out float4 fragColor, in float2 fragCoord);\n\n[shader(\"fragment\")]\nfloat4 fragmentMain(VSInput input) : SV_Target\n\x7b\n    float2 fragCoord = input.uv * iResolution.xy;\n    float4 fragColor = float4(0.0, 0.0, 0.0, 1.0);\n    mainImage(fragColor, fragCoord);\n    return fragColor;\n\x7d\n\n// \x2d\x2d\x2d\x2d USER CODE START (line 28) \x2d\x2d\x2d\x2d\n"

/-- Trailer of the Slang ShaderToy wrapper. -/
def slangShaderToySuf : String :=
  "\n// \x2d\x2d\x2d\x2d USER CODE END \x2d\x2d\x2d\x2d\n"

/-- `wrapUserCodeForSlangShaderToy` (lines 298-330). -/
def wrapUserCodeForSlangShaderToy (userCode : String) : String :=
  slangShaderToyPre ++ userCode ++ slangShaderToySuf

/-- The line offset chosen by the `/api/slang/compile` handler (line 702):
`mode === 'shaderToy' ? 28 : 36`. -/
def lineOffsetFor (mode : String) : Int :=
  if mode = "shaderToy" then 28 else 36

/-! ## Slang diagnostic parsing (`parseSlangErrors`, lines 333-353) -/

/-- A structured diagnostic as pushed by `parseSlangErrors`. -/
structure SlangDiag where
  line : Int
  type : String
  code : String
  message : String
deriving DecidableEq, Repr

/-- Case-insensitive alternation `(error|warning)`; the handler lower-cases
the capture (`match[2].toLowerCase()`), so the canonical form is returned. -/
def matchSeverity (s : List Char) : Option (String × List Char) :=
  match dropLitCI "error".data s with
  | some r => some ("error", r)
  | none =>
    match dropLitCI "warning".data s with
    | some r => some ("warning", r)
    | none => none

/-- Optional code group followed by a colon, `(\d+)?:`, with the regex
backtracking (greedy digits first, empty group otherwise). -/
def matchOptCodeColon (s : List Char) : Option (String × List Char) :=
  match takeDigits1 s with
  | some (ds, r) =>
    match expectChar ':' r with
    | some r2 => some (⟨ds⟩, r2)
    | none => (expectChar ':' s).map (fun r2 => ("", r2))
  | none => (expectChar ':' s).map (fun r2 => ("", r2))

/-- Core of the Slang diagnostic pattern,
`\((\d+)\):\s*(error|warning)\s*(\d+)?:\s*(.*)` with the `/i` flag, applied
to the suffix of a single line; returns (raw line, severity, code, message),
the message already trimmed as in the handler. -/
def slangDiagCore (s : List Char) : Option (Nat × String × String × String) := do
  let r1 ← expectChar '(' s
  let (ds, r2) ← takeDigits1 r1
  let r3 ← expectChar ')' r2
  let r4 ← expectChar ':' r3
  let r5 := dropSpaces r4
  let (sev, r6) ← matchSeverity r5
  let r7 := dropSpaces r6
  let (codeStr, r8) ← matchOptCodeColon r7
  let r9 := dropSpaces r8
  pure (natOfDigits ds, sev, codeStr, trimStr ⟨r9⟩)

/-- The full pattern `(?:\([^)]*\))?\((\d+)\): ...` at one position: the
optional leading parenthesised group is tried first (its `[^)]*` cannot cross
a closing parenthesis, so it has a single candidate), then the core alone. -/
def slangDiagAt (s : List Char) : Option (Nat × String × String × String) :=
  match (do
    let r1 ← expectChar '(' s
    let r2 := r1.dropWhile (fun c => !(c == ')'))
    let r3 ← expectChar ')' r2
    slangDiagCore r3) with
  | some res => some res
  | none => slangDiagCore s

/-- Leftmost match of the Slang diagnostic pattern on one line of stderr. -/
def slangDiagLine (line : String) : Option (Nat × String × String × String) :=
  scanFirst slangDiagAt (line.data.length + 1) line.data

/-- One `foldl` step of `parseSlangErrors`: on a match, push a diagnostic with
the remapped line clamped to 1, else keep the accumulator. -/
def parseSlangStep (lineOffset : Int) (errors : List SlangDiag) (line : String) :
    List SlangDiag :=
  match slangDiagLine line with
  | some (raw, sev, codeStr, msg) =>
    let lineNum : Int := (raw : Int) - lineOffset
    errors ++ [{ line := if lineNum > 0 then lineNum else 1
                 type := sev
                 code := codeStr
                 message := msg }]
  | none => errors

/-- `parseSlangErrors` (lines 333-353): split stderr on newlines, and for each
line matching the Slang diagnostic format push one structured record. -/
def parseSlangErrors (stderr : String) (lineOffset : Int) : List SlangDiag :=
  (splitNl stderr).foldl (parseSlangStep lineOffset) []

/-! ## glslang error branch of `/api/convert` (lines 166-174) -/

/-- Matcher for `ERROR:\s*\d+:(\d+):\s*(.*)` at one position (the final `.*`
stops at the next newline). -/
def glslangErrAt (s : List Char) : Option (Nat × String) := do
  let r1 ← dropLitS "ERROR:" s
  let r2 := dropSpaces r1
  let (_, r3) ← takeDigits1 r2
  let r4 ← expectChar ':' r3
  let (ds, r5) ← takeDigits1 r4
  let r6 ← expectChar ':' r5
  let r7 := dropSpaces r6
  pure (natOfDigits ds, ⟨r7.takeWhile (fun c => !(c == '\n'))⟩)

/-- The error-message adjustment of the glslang branch: on a match, the raw
line minus 31 becomes the user-facing line, printed as `?` when not positive;
without a match the message is passed through unchanged. -/
def adjustGlslangErrorMsg (errorMsg : String) : String :=
  match scanFirst glslangErrAt (errorMsg.data.length + 1) errorMsg.data with
  | some (raw, msg) =>
    let line : Int := (raw : Int) - 31
    "GLSL Error - Line " ++ (if line > 0 then toString line else "?") ++ ": " ++ trimStr msg
  | none => errorMsg

/-! ## Generic one-step matchers for the server's replace patterns -/

/-- Lift a prev-independent step matcher to the `gsub` interface, computing
the true last character of the matched text. -/
def stepWithLast (f : List Char → Option (List Char × List Char))
    (_prev : Option Char) (s : List Char) : Option (List Char × Char × List Char) :=
  match f s with
  | none => none
  | some (repl, rest) =>
    match (s.take (s.length - rest.length)).getLast? with
    | some lc => some (repl, lc, rest)
    | none => none

/-- Pattern `#pragma pack_matrix\(column_major\)\s*`, removed. -/
def remPragmaPack (s : List Char) : Option (List Char × List Char) :=
  (dropLitS "#pragma pack_matrix(column_major)" s).map (fun r => ([], dropSpaces r))

/-- Pattern `OPENER[\s\S]*?#endif\s*`, removed (lazy up to the first
`#endif`). -/
def remIfdefBlock (opener : String) (s : List Char) : Option (List Char × List Char) :=
  match dropLitS opener s with
  | none => none
  | some r =>
    match findSplit "#endif".data (r.length + 1) r with
    | none => none
    | some (_, after) => some ([], dropSpaces after)

/-- Does a line match `^#line\s+\d+.*$`? -/
def isLineDirective (l : List Char) : Bool :=
  match dropLitS "#line" l with
  | none => false
  | some r =>
    match dropSpaces1 r with
    | none => false
    | some r2 => (takeDigits1 r2).isSome

/-- The multiline replace `code.replace(/^#line\s+\d+.*$/gm, '')`: matching
lines become empty, newlines are kept. -/
def killLineDirectives (s : String) : String :=
  ⟨joinNlL ((splitNlL s.data).map (fun l => if isLineDirective l then [] else l))⟩

/-- Pattern `struct\s+NAME\s*\{[^}]*\}\s*;\s*`, removed. -/
def remStructDef (name : String) (s : List Char) : Option (List Char × List Char) := do
  let r1 ← dropLitS "struct" s
  let r2 ← dropSpaces1 r1
  let r3 ← dropLitS name r2
  let r4 := dropSpaces r3
  let r5 ← expectChar lbrace r4
  let r6 := r5.dropWhile (fun c => !(c == rbrace))
  let r7 ← expectChar rbrace r6
  let r8 := dropSpaces r7
  let r9 ← expectChar ';' r8
  pure ([], dropSpaces r9)

/-- Pattern `cbuffer\s+globalParams_0\s*:\s*register\s*\([^)]*\)\s*\{[^}]*\}\s*`. -/
def remCbuffer (s : List Char) : Option (List Char × List Char) := do
  let r1 ← dropLitS "cbuffer" s
  let r2 ← dropSpaces1 r1
  let r3 ← dropLitS "globalParams_0" r2
  let r4 := dropSpaces r3
  let r5 ← expectChar ':' r4
  let r6 := dropSpaces r5
  let r7 ← dropLitS "register" r6
  let r8 := dropSpaces r7
  let r9 ← expectChar '(' r8
  let r10 := r9.dropWhile (fun c => !(c == ')'))
  let r11 ← expectChar ')' r10
  let r12 := dropSpaces r11
  let r13 ← expectChar lbrace r12
  let r14 := r13.dropWhile (fun c => !(c == rbrace))
  let r15 ← expectChar rbrace r14
  pure ([], dropSpaces r15)

/-- Pattern `input_0(?!\w)`, replaced by `input` (negative lookahead). -/
def inputNoWordStep (s : List Char) : Option (List Char × List Char) :=
  match dropLitS "input_0" s with
  | none => none
  | some rest =>
    match rest with
    | c :: _ => if isJsWord c then none else some ("input".data, rest)
    | [] => some ("input".data, rest)

/-- Pattern `_S(\d+)`, replaced by `t$1`. -/
def sDigitStep (s : List Char) : Option (List Char × List Char) :=
  match dropLitS "_S" s with
  | none => none
  | some r =>
    match takeDigits1 r with
    | none => none
    | some (ds, rest) => some ('t' :: ds, rest)

/-- Pattern `\n{3,}`, replaced by two newlines. -/
def manyNlStep (s : List Char) : Option (List Char × List Char) :=
  match s.span (fun c => c == '\n') with
  | (nls, rest) => if nls.length ≥ 3 then some ("\n\n".data, rest) else none

/-- Pattern `for\s*\(\s*;\s*;\s*\)`, replaced by the bounded loop header. -/
def forSemiStep (s : List Char) : Option (List Char × List Char) := do
  let r1 ← dropLitS "for" s
  let r2 := dropSpaces r1
  let r3 ← expectChar '(' r2
  let r4 := dropSpaces r3
  let r5 ← expectChar ';' r4
  let r6 := dropSpaces r5
  let r7 ← expectChar ';' r6
  let r8 := dropSpaces r7
  let r9 ← expectChar ')' r8
  pure ("for(int _loopIdx = 0; _loopIdx < 10000; _loopIdx++)".data, r9)

/-- Word-boundary literal replace `\bPAT\b` (both ends), used for the GLSL
varying renames. -/
def wordBoundStep (pat repl : String) (prev : Option Char) (s : List Char) :
    Option (List Char × Char × List Char) :=
  if (match prev with | some p => isJsWord p | none => false) then none
  else
    match dropLitS pat s with
    | none => none
    | some rest =>
      let okEnd := match rest with | c :: _ => !(isJsWord c) | [] => true
      if okEnd then
        match pat.data.getLast? with
        | some lc => some (repl.data, lc, rest)
        | none => none
      else none

/-! ## `applyUnrealTransforms` (lines 78-102) -/

/-- Step for `\bfloatN\s*\(\s*([^,)]+)\s*\)` with the expansion callback of
`applyUnrealTransforms`: a leading word boundary, then the constructor name,
then a single argument that cannot contain a comma or closing parenthesis;
the callback keeps the match when the argument contains a comma (dead branch,
kept for fidelity) and otherwise repeats the trimmed argument once per
component. -/
def floatConsStep (ty : String) (n : Nat) (prev : Option Char) (s : List Char) :
    Option (List Char × Char × List Char) :=
  if (match prev with | some p => isJsWord p | none => false) then none
  else
    match dropLitS ty s with
    | none => none
    | some r1 =>
      let r2 := dropSpaces r1
      match expectChar '(' r2 with
      | none => none
      | some r3 =>
        let r4 := dropSpaces r3
        match r4.span (fun c => !(c == ',' || c == ')')) with
        | ([], _) => none
        | (arg, r5) =>
          match expectChar ')' r5 with
          | none => none
          | some rest =>
            if arg.contains ',' then
              some (s.take (s.length - rest.length), ')', rest)
            else
              let tArg := trimL arg
              let repl := (ty ++ "(").data ++ tArg ++
                (List.replicate (n - 1) (", ".data ++ tArg)).flatten ++ [')']
              some (repl, ')', rest)

/-- Step for `^(\s*)fragColor\s*=\s*([^;]+);` with the `m` flag: rewrite a
final assignment to `fragColor` into a `return` of the trimmed value. -/
def fragColorAssignStep (prev : Option Char) (s : List Char) :
    Option (List Char × Char × List Char) :=
  if (match prev with | none => true | some p => p == '\n') then
    match s.span isJsSpace with
    | (ind, r1) =>
      match dropLitS "fragColor" r1 with
      | none => none
      | some r2 =>
        let r3 := dropSpaces r2
        match expectChar '=' r3 with
        | none => none
        | some r4 =>
          let r5 := dropSpaces r4
          match r5.span (fun c => !(c == ';')) with
          | ([], _) => none
          | (v, r6) =>
            match expectChar ';' r6 with
            | none => none
            | some rest =>
              some (ind ++ "return ".data ++ trimL v ++ [';'], ';', rest)
  else none

/-- `applyUnrealTransforms` (lines 78-102): expand the three single-argument
vector constructors, then rewrite `fragColor = ...;` assignments into
returns. -/
def applyUnrealTransforms (hlslCode : String) : String :=
  let h1 := gsubStr (floatConsStep "float2" 2) hlslCode
  let h2 := gsubStr (floatConsStep "float3" 3) h1
  let h3 := gsubStr (floatConsStep "float4" 4) h2
  gsubStr fragColorAssignStep h3

/-! ## `extractUserCodeSection` (lines 105-138) -/

/-- Four dash characters (the `----` of the user-code markers). -/
def dashes4 : String := "\x2d\x2d\x2d\x2d"

/-- Head of `void\s+main\s*\(\s*\)\s*\{`. -/
def mainHeadAt (s : List Char) : Option (List Char) := do
  let r1 ← dropLitS "void" s
  let r2 ← dropSpaces1 r1
  let r3 ← dropLitS "main" r2
  let r4 := dropSpaces r3
  let r5 ← expectChar '(' r4
  let r6 := dropSpaces r5
  let r7 ← expectChar ')' r6
  let r8 := dropSpaces r7
  expectChar lbrace r8

/-- First match of a `HEAD([\s\S]*)\}` pattern: leftmost position where the
head matches, group = everything up to the last closing brace. -/
def greedyBody (head : List Char → Option (List Char)) (s : String) :
    Option (List Char) :=
  scanFirst (fun t =>
    match head t with
    | none => none
    | some rest =>
      match lastSplitAt rbrace rest with
      | none => none
      | some (body, _) => some body) (s.data.length + 1) s.data

/-- Split at the leftmost position where a matcher succeeds, returning the
text before that position together with the match result. -/
def scanSplit {α : Type} (m : List Char → Option α) :
    Nat → List Char → Option (List Char × α)
  | 0, _ => none
  | fuel + 1, s =>
    match m s with
    | some a => some ([], a)
    | none =>
      match s with
      | [] => none
      | c :: cs =>
        match scanSplit m fuel cs with
        | some (b, a) => some (c :: b, a)
        | none => none

/-- Start marker `\/\/\s*----\s*USER CODE START\s*----\s*` of the user-code
section pattern; returns the rest after the trailing whitespace. -/
def userStartAt (s : List Char) : Option (List Char) := do
  let r1 ← dropLitS "//" s
  let r2 := dropSpaces r1
  let r3 ← dropLitS dashes4 r2
  let r4 := dropSpaces r3
  let r5 ← dropLitS "USER CODE START" r4
  let r6 := dropSpaces r5
  let r7 ← dropLitS dashes4 r6
  pure (dropSpaces r7)

/-- End marker `\/\/\s*----\s*USER CODE END\s*----`. -/
def userEndAt (s : List Char) : Option Unit := do
  let r1 ← dropLitS "//" s
  let r2 := dropSpaces r1
  let r3 ← dropLitS dashes4 r2
  let r4 := dropSpaces r3
  let r5 ← dropLitS "USER CODE END" r4
  let r6 := dropSpaces r5
  let _ ← dropLitS dashes4 r6
  pure ()

/-- The full user-code section pattern at one position: start marker, then a
lazy body up to the first end marker. -/
def userSectionAt (s : List Char) : Option (List Char) := do
  let r ← userStartAt s
  let (body, _) ← scanSplit userEndAt (r.length + 1) r
  pure body

/-- One filter condition of the fallback branch of `extractUserCodeSection`:
wrapper variable declarations and blank lines are dropped. -/
def wrapperDeclLine (l : List Char) : Bool :=
  let t := trimL l
  (dropLitS "float2 iResolution =" t).isSome ||
  (dropLitS "float iTime =" t).isSome ||
  (dropLitS "float iTimeDelta =" t).isSome ||
  (dropLitS "float iFrame =" t).isSome ||
  (dropLitS "float iFrameRate =" t).isSome ||
  (dropLitS "float2 iUV =" t).isSome ||
  (dropLitS "float3 iNormal =" t).isSome ||
  (dropLitS "float3 iPosition =" t).isSome ||
  (dropLitS "float4 fragColor =" t).isSome ||
  (dropLitS "outFragColor =" t).isSome ||
  t.isEmpty

/-- `extractUserCodeSection` (lines 105-138). -/
def extractUserCodeSection (hlslCode : String) : String :=
  match greedyBody mainHeadAt hlslCode with
  | none => hlslCode
  | some body =>
    match scanFirst userSectionAt (body.length + 1) body with
    | some sec => ⟨trimL sec⟩
    | none =>
      let filtered := (splitNlL body).filter (fun l => !(wrapperDeclLine l))
      ⟨trimL (joinNlL filtered)⟩

/-! ## `cleanupSlangHlslOutput` (lines 356-398) -/

def cleanupSlangHlslOutput (hlslCode : String) : String :=
  let c1 := gsubStr (stepWithLast remPragmaPack) hlslCode
  let c2 := gsubStr (stepWithLast (remIfdefBlock "#ifdef SLANG_HLSL_ENABLE_NVAPI")) c1
  let c3 := gsubStr (stepWithLast (remIfdefBlock "#ifndef __DXC_VERSION_MAJOR")) c2
  let c4 := killLineDirectives c3
  let c5 := replaceAll c4 "GlobalParams_0" "Uniforms"
  let c6 := replaceAll c5 "globalParams_0." ""
  let c7 := replaceAll c6 "uResolution_0" "iResolution"
  let c8 := replaceAll c7 "uTime_0" "iTime"
  let c9 := replaceAll c8 "uTimeDelta_0" "iTimeDelta"
  let c10 := replaceAll c9 "uFrame_0" "iFrame"
  let c11 := replaceAll c10 "uFrameRate_0" "iFrameRate"
  let c12 := replaceAll c11 "VSInput_0" "VSInput"
  let c13 := replaceAll c12 "input_0." "input."
  let c14 := gsubStr (stepWithLast inputNoWordStep) c13
  let c15 := replaceAll c14 "uv_0" "uv"
  let c16 := replaceAll c15 "normal_0" "normal"
  let c17 := replaceAll c16 "position_0" "position"
  let c18 := gsubStr (stepWithLast sDigitStep) c17
  let c19 := gsubStr (stepWithLast manyNlStep) c18
  trimStr c19

/-! ## `cleanupSlangHlslForUnreal` (lines 401-524) -/

/-- Pattern `return\s+float4\s*\(`, replaced by the rewrite marker. -/
def returnFloat4Step (s : List Char) : Option (List Char × List Char) := do
  let r1 ← dropLitS "return" s
  let r2 ← dropSpaces1 r1
  let r3 ← dropLitS "float4" r2
  let r4 := dropSpaces r3
  let r5 ← expectChar '(' r4
  pure ("__RETURN_FLOAT4_START__(".data, r5)

/-- The forward scan of the rewrite: consume up to and including the
parenthesis that balances an already-open one, as in the `while (depth > 0)`
loop of the handler; on unbalanced input the whole rest is consumed. -/
def scanToCloseParen : Nat → Nat → List Char → List Char → (List Char × List Char)
  | _, _, acc, [] => (acc.reverse, [])
  | 0, _, acc, s => (acc.reverse, s)
  | fuel + 1, depth, acc, c :: cs =>
    let d := if c == '(' then depth + 1 else if c == ')' then depth - 1 else depth
    if d == 0 then ((c :: acc).reverse, cs)
    else scanToCloseParen fuel d (c :: acc) cs

/-- The backward scan for the last comma at parenthesis depth zero, as in the
`for (let i = innerContent.length - 1; ...)` loop; takes the reversed
content and returns the offset from the end. -/
def lastTopCommaRev (depth : Int) : List Char → Option Nat
  | [] => none
  | c :: cs =>
    let d := if c == ')' then depth + 1 else if c == '(' then depth - 1 else depth
    if c == ',' && d == 0 then some 0
    else (lastTopCommaRev d cs).map (· + 1)

/-- Backtracking tail of `([^;]+)\)\s*;`: the group ends just before the last
closing parenthesis that is followed only by whitespace. -/
def splitLastCloseWs (seg : List Char) : Option (List Char) :=
  match lastSplitAt ')' seg with
  | none => none
  | some (b, a) =>
    if a.all isJsSpace then (if b.isEmpty then none else some b) else none

/-- Fallback pattern `return\s+float4\s*\(([^;]+)\)\s*;` of the no-comma
branch, replaced by `return ($1).xyz;`. -/
def returnXyzStep (s : List Char) : Option (List Char × List Char) := do
  let r1 ← dropLitS "return" s
  let r2 ← dropSpaces1 r1
  let r3 ← dropLitS "float4" r2
  let r4 := dropSpaces r3
  let r5 ← expectChar '(' r4
  let (seg, r6) := r5.span (fun c => !(c == ';'))
  let _ ← expectChar ';' r6
  let g ← splitLastCloseWs seg
  pure ("return (".data ++ g ++ ").xyz;".data, r6.drop 1)

/-- The `return float4(...)` → RGB-only rewrite of `cleanupSlangHlslForUnreal`
(lines 444-489): mark every `return float4(`, then rewrite only the first
marker by balanced-parenthesis scanning and last top-level comma splitting. -/
def rewriteReturnFloat4 (funcBody : List Char) : List Char :=
  let fb := gsub (stepWithLast returnFloat4Step) (funcBody.length + 1) none funcBody
  match findSplit "__RETURN_FLOAT4_START__(".data (fb.length + 1) fb with
  | none => fb
  | some (before, after) =>
    let (consumed, tail) := scanToCloseParen (after.length + 1) 1 [] after
    let inner := consumed.dropLast
    match lastTopCommaRev 0 inner.reverse with
    | some revIdx =>
      let lastCommaIdx := inner.length - 1 - revIdx
      let colorPart := trimL (inner.take lastCommaIdx)
      before ++ "return ".data ++ colorPart ++ ';' :: tail.drop 1
    | none =>
      let fb2 := sub1 (fun t => (dropLitS "__RETURN_FLOAT4_START__" t).map
        (fun r => ("float4".data, r))) (fb.length + 1) fb
      sub1 returnXyzStep (fb2.length + 1) fb2

/-- Head of `float4\s+fragmentMain\s*\([^)]*\)\s*:\s*SV_TARGET\s*\{`. -/
def fragmentMainHeadAt (s : List Char) : Option (List Char) := do
  let r1 ← dropLitS "float4" s
  let r2 ← dropSpaces1 r1
  let r3 ← dropLitS "fragmentMain" r2
  let r4 := dropSpaces r3
  let r5 ← expectChar '(' r4
  let r6 := r5.dropWhile (fun c => !(c == ')'))
  let r7 ← expectChar ')' r6
  let r8 := dropSpaces r7
  let r9 ← expectChar ':' r8
  let r10 := dropSpaces r9
  let r11 ← dropLitS "SV_TARGET" r10
  let r12 := dropSpaces r11
  expectChar lbrace r12

/-- Dedent step of the handler: drop one four-space indentation level. -/
def dedent4 (l : List Char) : List Char :=
  match l with
  | ' ' :: ' ' :: ' ' :: ' ' :: rest => rest
  | _ => l

/-- The fixed Unreal custom-node header prepended to the extracted body. -/
def unrealHeaderPre : String :=
  "// Unreal Engine Custom Material Node\n// Connect these inputs in the Material Editor:\n//   - Time: Use \"Time\" node\n//   - UV: Use \"TexCoord[0]\" node\n//   - Normal: Use \"VertexNormalWS\" node\n//   - Position: Use \"WorldPosition\" node\n//   - Resolution: Use \"ViewSize\" node or create a parameter\n\n// Input variables (connect via Material Editor)\nfloat Time = View.RealTime;\nfloat2 UV = TexCoords[0].xy;\nfloat3 Normal = Parameters.TangentToWorld[2];\nfloat3 Position = GetWorldPosition(Parameters);\nfloat2 Resolution = View.ViewSizeAndInvSize.xy;\n\n// Additional variables (if needed)\nfloat DeltaTime = View.DeltaTime;\nfloat Frame = View.FrameNumber;\nfloat FrameRate = 1.0 / max(View.DeltaTime, 0.001);\n\n// Shader logic\n"

/-- `cleanupSlangHlslForUnreal` (lines 401-524). -/
def cleanupSlangHlslForUnreal (hlslCode : String) : String :=
  let c1 := gsubStr (stepWithLast remPragmaPack) hlslCode
  let c2 := gsubStr (stepWithLast (remIfdefBlock "#ifdef SLANG_HLSL_ENABLE_NVAPI")) c1
  let c3 := gsubStr (stepWithLast (remIfdefBlock "#ifndef __DXC_VERSION_MAJOR")) c2
  let c4 := killLineDirectives c3
  let c5 := gsubStr (stepWithLast (remStructDef "GlobalParams_0")) c4
  let c6 := gsubStr (stepWithLast (remStructDef "VSInput_0")) c5
  let c7 := gsubStr (stepWithLast remCbuffer) c6
  match greedyBody fragmentMainHeadAt c7 with
  | none => "// Error: Could not extract function body\n" ++ c7
  | some body =>
    let f1 := replaceAll ⟨body⟩ "globalParams_0.uResolution_0" "Resolution"
    let f2 := replaceAll f1 "globalParams_0.uTime_0" "Time"
    let f3 := replaceAll f2 "globalParams_0.uTimeDelta_0" "DeltaTime"
    let f4 := replaceAll f3 "globalParams_0.uFrame_0" "Frame"
    let f5 := replaceAll f4 "globalParams_0.uFrameRate_0" "FrameRate"
    let f6 := replaceAll f5 "input_0.uv_0" "UV"
    let f7 := replaceAll f6 "input_0.normal_0" "Normal"
    let f8 := replaceAll f7 "input_0.position_0" "Position"
    let f9 := gsubStr (stepWithLast sDigitStep) f8
    let f10 := gsubStr (stepWithLast forSemiStep) f9
    let f11 := rewriteReturnFloat4 f10.data
    let f12 := joinNlL ((splitNlL f11).map dedent4)
    let result := unrealHeaderPre ++ trimStr ⟨f12⟩
    trimStr (gsubStr (stepWithLast manyNlStep) result)

/-! ## `cleanupSlangWgslOutput` and `cleanupSlangMetalOutput` (lines 527-563) -/

def cleanupSlangWgslOutput (wgslCode : String) : String :=
  let c1 := replaceAll wgslCode "globalParams_0." ""
  let c2 := replaceAll c1 "uResolution_0" "iResolution"
  let c3 := replaceAll c2 "uTime_0" "iTime"
  let c4 := replaceAll c3 "uTimeDelta_0" "iTimeDelta"
  let c5 := replaceAll c4 "uFrame_0" "iFrame"
  let c6 := replaceAll c5 "uFrameRate_0" "iFrameRate"
  let c7 := replaceAll c6 "input_0." "input."
  let c8 := gsubStr (stepWithLast sDigitStep) c7
  trimStr c8

def cleanupSlangMetalOutput (metalCode : String) : String :=
  let c1 := replaceAll metalCode "globalParams_0->" ""
  let c2 := replaceAll c1 "globalParams_0." ""
  let c3 := replaceAll c2 "uResolution_0" "iResolution"
  let c4 := replaceAll c3 "uTime_0" "iTime"
  let c5 := replaceAll c4 "uTimeDelta_0" "iTimeDelta"
  let c6 := replaceAll c5 "uFrame_0" "iFrame"
  let c7 := replaceAll c6 "uFrameRate_0" "iFrameRate"
  let c8 := replaceAll c7 "input_0." "input."
  let c9 := gsubStr (stepWithLast sDigitStep) c8
  trimStr c9

/-! ## `cleanupSlangGlslOutput` (lines 566-661) -/

/-- Pattern `#version\s+\d+.*\r?\n?`, removed. -/
def remVersionDir (s : List Char) : Option (List Char × List Char) := do
  let r1 ← dropLitS "#version" s
  let r2 ← dropSpaces1 r1
  let (_, r3) ← takeDigits1 r2
  let r4 := r3.dropWhile (fun c => !(c == '\n'))
  pure ([], match r4 with | '\n' :: t => t | _ => r4)

/-- Pattern `precision\s+(lowp|mediump|highp)\s+(float|int)\s*;\s*\r?\n?`. -/
def remPrecision (s : List Char) : Option (List Char × List Char) := do
  let r1 ← dropLitS "precision" s
  let r2 ← dropSpaces1 r1
  let r3 ← (dropLitS "lowp" r2 <|> dropLitS "mediump" r2 <|> dropLitS "highp" r2)
  let r4 ← dropSpaces1 r3
  let r5 ← (dropLitS "float" r4 <|> dropLitS "int" r4)
  let r6 := dropSpaces r5
  let r7 ← expectChar ';' r6
  pure ([], dropSpaces r7)

/-- Pattern `uniform\s+GlobalParams_std140\s+globalParams\s*;\s*`. -/
def remUniformDecl (s : List Char) : Option (List Char × List Char) := do
  let r1 ← dropLitS "uniform" s
  let r2 ← dropSpaces1 r1
  let r3 ← dropLitS "GlobalParams_std140" r2
  let r4 ← dropSpaces1 r3
  let r5 ← dropLitS "globalParams" r4
  let r6 := dropSpaces r5
  let r7 ← expectChar ';' r6
  pure ([], dropSpaces r7)

/-- Pattern `varying\s+highp\s+TY\s+NAME\s*;\s*`. -/
def remVarying (ty nm : String) (s : List Char) : Option (List Char × List Char) := do
  let r1 ← dropLitS "varying" s
  let r2 ← dropSpaces1 r1
  let r3 ← dropLitS "highp" r2
  let r4 ← dropSpaces1 r3
  let r5 ← dropLitS ty r4
  let r6 ← dropSpaces1 r5
  let r7 ← dropLitS nm r6
  let r8 := dropSpaces r7
  let r9 ← expectChar ';' r8
  pure ([], dropSpaces r9)

/-- Pattern `gl_FragData\s*\[\s*0\s*\]`, replaced by `fragColor`. -/
def glFragDataStep (s : List Char) : Option (List Char × List Char) := do
  let r1 ← dropLitS "gl_FragData" s
  let r2 := dropSpaces r1
  let r3 ← expectChar '[' r2
  let r4 := dropSpaces r3
  let r5 ← expectChar '0' r4
  let r6 := dropSpaces r5
  let r7 ← expectChar ']' r6
  pure ("fragColor".data, r7)

/-- Pattern `\bhighp\s+`, removed. -/
def highpStep (prev : Option Char) (s : List Char) :
    Option (List Char × Char × List Char) :=
  if (match prev with | some p => isJsWord p | none => false) then none
  else
    match dropLitS "highp" s with
    | none => none
    | some r =>
      match dropSpaces1 r with
      | none => none
      | some rest => some ([], ' ', rest)

/-- Result template of the ShaderToy branch (header before `${mainBody}`). -/
def shaderToyResPre : String :=
  "void mainImage(out vec4 fragColor, in vec2 fragCoord)\n\x7b\n    // Convert pixel coordinates to UV (0-1 range)\n    vec2 uv = fragCoord / iResolution.xy;\n\n    // Fake 3D inputs for 2D ShaderToy context\n    vec3 normal = vec3(0.0, 0.0, 1.0);\n    vec3 position = vec3(uv, 0.0);\n\n"

/-- Result template of the material-library branch. -/
def materialResPre : String :=
  "// Uniforms: iResolution, iTime, iTimeDelta, iFrame, iFrameRate\n// Inputs: uv (vec2), normal (vec3), position (vec3)\n// Output: fragColor (vec4)\n\nvoid mainImage(out vec4 fragColor, in vec2 fragCoord)\n\x7b\n    vec2 uv = fragCoord / iResolution.xy;\n    vec3 normal = vec3(0.0, 0.0, 1.0);\n    vec3 position = vec3(uv, 0.0);\n\n"

/-- Closing of both result templates. -/
def mainImageResSuf : String := "\n\x7d"

/-- `cleanupSlangGlslOutput` (lines 566-661). -/
def cleanupSlangGlslOutput (glslCode : String) (mode : String) : String :=
  let c1 := gsubStr (stepWithLast remVersionDir) glslCode
  let c2 := gsubStr (stepWithLast remPrecision) c1
  let c3 := gsubStr (stepWithLast (remStructDef "GlobalParams_std140")) c2
  let c4 := gsubStr (stepWithLast remUniformDecl) c3
  let c5 := gsubStr (stepWithLast (remVarying "vec2" "input_uv")) c4
  let c6 := gsubStr (stepWithLast (remVarying "vec3" "input_normal")) c5
  let c7 := gsubStr (stepWithLast (remVarying "vec3" "input_position")) c6
  let c8 := replaceAll c7 "globalParams.uResolution" "iResolution"
  let c9 := replaceAll c8 "globalParams.uTime" "iTime"
  let c10 := replaceAll c9 "globalParams.uTimeDelta" "iTimeDelta"
  let c11 := replaceAll c10 "globalParams.uFrame" "iFrame"
  let c12 := replaceAll c11 "globalParams.uFrameRate" "iFrameRate"
  let c13 := gsubStr (wordBoundStep "input_uv" "uv") c12
  let c14 := gsubStr (wordBoundStep "input_normal" "normal") c13
  let c15 := gsubStr (wordBoundStep "input_position" "position") c14
  let c16 := gsubStr (stepWithLast glFragDataStep) c15
  let c17 := gsubStr highpStep c16
  let c18 := gsubStr (stepWithLast forSemiStep) c17
  match greedyBody mainHeadAt c18 with
  | none => trimStr c18
  | some mainBody =>
    let mb := joinNlL ((splitNlL mainBody).map dedent4)
    let result :=
      if mode = "shaderToy" then shaderToyResPre ++ (⟨mb⟩ : String) ++ mainImageResSuf
      else materialResPre ++ (⟨mb⟩ : String) ++ mainImageResSuf
    let r1 := replaceAll result "\r\n" "\n"
    let r2 := gsubStr (stepWithLast manyNlStep) r1
    trimStr r2

/-! ## The `/api/slang/compile` handler (lines 664-820)

The handler is modelled as a pure function of the request and of oracles for
the external tool invocations (exit status with captured stderr, and the
bytes/text of the output file).  Alongside the HTTP response it returns the
ordered list of file-system and process effects it would perform, so that
"fails before creating a workspace / spawning a subprocess" is expressible. -/

/-- Outcome of one external tool invocation. -/
inductive ToolOutcome where
  | ok
  | fail (stderr : String)
deriving DecidableEq, Repr

/-- An observable side effect of a handler run. -/
inductive ServerEffect where
  | mkdtemp
  | writeFile (name content : String)
  | spawn (tool : String) (args : List String)
  | readFile (name : String)
  | removeDir
deriving DecidableEq, Repr

/-- Node `Buffer.toString('base64')` character table. -/
def b64Char (n : Nat) : Char :=
  "ABCDEFGHIJKLMNOPQRSTUVWXYZabcdefghijklmnopqrstuvwxyz0123456789+/".data.getD n 'A'

/-- Standard base64 with padding over a byte list (entries 0-255), as produced
by Node `Buffer.toString('base64')` for the SPIR-V output file. -/
def base64Encode : List Nat → List Char
  | [] => []
  | [a] => [b64Char (a / 4), b64Char (a % 4 * 16), '=', '=']
  | [a, b] => [b64Char (a / 4), b64Char (a % 4 * 16 + b / 16), b64Char (b % 16 * 4), '=']
  | a :: b :: c :: rest =>
    b64Char (a / 4) :: b64Char (a % 4 * 16 + b / 16) :: b64Char (b % 16 * 4 + c / 64) ::
      b64Char (c % 64) :: base64Encode rest

/-- The body fields of a `/api/slang/compile` request (defaults are applied by
the destructuring in line 665-672). -/
structure SlangReq where
  source : String
  target : String
  mode : String
  entryPoint : String
  stage : String
  forExport : Bool
deriving DecidableEq, Repr

/-- Oracles for the external stages of one `/api/slang/compile` run. -/
structure SlangOracles where
  slangc : ToolOutcome
  spirvCross : ToolOutcome
  outputBinary : List Nat
  outputText : String
deriving DecidableEq, Repr

/-- The JSON response of `/api/slang/compile`, with the HTTP status. -/
structure SlangHttpResponse where
  status : Nat
  success : Bool
  error : Option String
  errors : List SlangDiag
  code : Option String
  target : Option String
  mode : Option String
  stage : Option String
deriving DecidableEq, Repr

/-- The supported target list of line 679. -/
def validTargets : List String :=
  ["glsl", "hlsl", "unrealHlsl", "spirv", "wgsl", "metal"]

/-- The `outputExtensions` lookup table of lines 691-698 (only consulted after
target validation). -/
def outputExtensionFor (target : String) : String :=
  if target = "glsl" then "glsl"
  else if target = "hlsl" then "hlsl"
  else if target = "unrealHlsl" then "hlsl"
  else if target = "spirv" then "spv"
  else if target = "wgsl" then "wgsl"
  else if target = "metal" then "metal"
  else ""

/-- The 400 response built in the slangc catch branch (lines 743-753): the
top-level `error` is the first parsed message, or the raw stderr when nothing
parsed; the structured list is whatever `parseSlangErrors` produced. -/
def slangFailResponse (stderr : String) (lineOff : Int) : SlangHttpResponse :=
  let errors := parseSlangErrors stderr lineOff
  { status := 400
    success := false
    error := some (match errors with | e :: _ => e.message | [] => stderr)
    errors := errors
    code := none
    target := none
    mode := none
    stage := some "slang-compilation" }

/-- The per-target cleanup dispatch of lines 787-800: cleanups run only under
the `forExport` flag. -/
def applyExportCleanup (target mode : String) (forExport : Bool) (code : String) : String :=
  if forExport then
    if target = "hlsl" then cleanupSlangHlslOutput code
    else if target = "unrealHlsl" then cleanupSlangHlslForUnreal code
    else if target = "wgsl" then cleanupSlangWgslOutput code
    else if target = "metal" then cleanupSlangMetalOutput code
    else if target = "glsl" then cleanupSlangGlslOutput code mode
    else code
  else code

/-- The `/api/slang/compile` handler (lines 664-820). -/
def slangCompileModel (req : SlangReq) (orc : SlangOracles) :
    List ServerEffect × SlangHttpResponse :=
  if req.source = "" then
    ([], { status := 400, success := false, error := some "No source code provided",
           errors := [], code := none, target := none, mode := none, stage := none })
  else if validTargets.contains req.target = false then
    ([], { status := 400, success := false,
           error := some ("Invalid target: " ++ req.target ++ ". Valid targets: "
             ++ String.intercalate ", " validTargets),
           errors := [], code := none, target := none, mode := none, stage := none })
  else
    let outputFile := "shader." ++ outputExtensionFor req.target
    let lineOff := lineOffsetFor req.mode
    let fullShaderCode :=
      if req.mode = "shaderToy" then wrapUserCodeForSlangShaderToy req.source
      else wrapUserCodeForSlang req.source
    let useSpirVCrossPipeline := req.target = "glsl"
    let slangTarget :=
      if useSpirVCrossPipeline then "spirv"
      else if req.target = "unrealHlsl" then "hlsl" else req.target
    let slangOutputFile := if useSpirVCrossPipeline then "shader.spv" else outputFile
    let args :=
      ["shader.slang", "-target", slangTarget, "-entry", req.entryPoint,
       "-stage", req.stage, "-o", slangOutputFile]
      ++ (if req.target = "hlsl" ∨ req.target = "unrealHlsl"
          then ["-profile", "sm_5_0"] else [])
      ++ ["-line-directive-mode", "none"]
    let effs0 := [ServerEffect.mkdtemp,
                  ServerEffect.writeFile "shader.slang" fullShaderCode,
                  ServerEffect.spawn "slangc" args]
    let finish : List ServerEffect → List ServerEffect × SlangHttpResponse := fun effs =>
      let compiledCode :=
        if req.target = "spirv" then (⟨base64Encode orc.outputBinary⟩ : String)
        else applyExportCleanup req.target req.mode req.forExport orc.outputText
      (effs ++ [ServerEffect.readFile outputFile, ServerEffect.removeDir],
       { status := 200, success := true, error := none, errors := [],
         code := some compiledCode, target := some req.target,
         mode := some req.mode, stage := none })
    match orc.slangc with
    | ToolOutcome.fail stderr =>
      (effs0 ++ [ServerEffect.removeDir], slangFailResponse stderr lineOff)
    | ToolOutcome.ok =>
      if useSpirVCrossPipeline then
        let spirvEff := ServerEffect.spawn "spirv-cross"
          [slangOutputFile, "--version", "100", "--es", "--output", outputFile]
        match orc.spirvCross with
        | ToolOutcome.fail stderr =>
          (effs0 ++ [spirvEff, ServerEffect.removeDir],
           { status := 400, success := false,
             error := some ("spirv-cross error: " ++ stderr),
             errors := [], code := none, target := none, mode := none,
             stage := some "spirv-cross" })
        | ToolOutcome.ok => finish (effs0 ++ [spirvEff])
      else finish effs0

/-! ## The `/api/convert` handler (lines 140-217) -/

/-- The body fields of a `/api/convert` request. -/
structure ConvertReq where
  glslCode : String
  shaderType : String
  mode : String
  extractUserCode : Bool
deriving DecidableEq, Repr

/-- The JSON response of `/api/convert`, with the HTTP status. -/
structure ConvertResponse where
  status : Nat
  success : Bool
  error : Option String
  stage : Option String
  hlsl : Option String
deriving DecidableEq, Repr

/-- The `/api/convert` handler (lines 140-217); the spirv-cross oracle carries
the captured stdout on success. -/
def convertModel (req : ConvertReq) (glslangRes : ToolOutcome)
    (spirvOut : Except String String) : List ServerEffect × ConvertResponse :=
  if req.glslCode = "" then
    ([], { status := 400, success := false, error := some "No GLSL code provided",
           stage := none, hlsl := none })
  else
    let fullShaderCode :=
      if req.shaderType = "frag" then wrapUserCodeForSpirv req.glslCode
      else VERTEX_SHADER
    let effs0 := [ServerEffect.mkdtemp,
                  ServerEffect.writeFile ("shader." ++ req.shaderType) fullShaderCode,
                  ServerEffect.spawn "glslangValidator"
                    ["-V", "-S", req.shaderType, "-o", "shader.spv",
                     "shader." ++ req.shaderType]]
    match glslangRes with
    | ToolOutcome.fail stderr =>
      (effs0 ++ [ServerEffect.removeDir],
       { status := 400, success := false, error := some (adjustGlslangErrorMsg stderr),
         stage := some "glsl-to-spirv", hlsl := none })
    | ToolOutcome.ok =>
      let effs1 := effs0 ++ [ServerEffect.spawn "spirv-cross"
        ["shader.spv", "--hlsl", "--shader-model", "50"]]
      match spirvOut with
      | Except.error stderr =>
        (effs1 ++ [ServerEffect.removeDir],
         { status := 400, success := false, error := some stderr,
           stage := some "spirv-to-hlsl", hlsl := none })
      | Except.ok out =>
        let h1 := if req.mode = "unrealHlsl" then applyUnrealTransforms out else out
        let h2 := if req.extractUserCode then extractUserCodeSection h1 else h1
        (effs1 ++ [ServerEffect.removeDir],
         { status := 200, success := true, error := none, stage := none,
           hlsl := some h2 })

/-! ## Concrete artifacts used to settle the claims

These are small but structurally faithful Slang-compiler HLSL outputs: a
`fragmentMain` definition with the `SV_TARGET` semantic, mangled `_0` names
and a final `return float4(...)`, the shape the cleanup functions target. -/

/-- A minimal slangc HLSL artifact for the Unreal normalizer. -/
def unrealSampleArtifact : String :=
  "#pragma pack_matrix(column_major)\nstruct VSInput_0\n\x7b\n    float2 uv_0 : TEXCOORD0;\n\x7d;\n\nfloat4 fragmentMain(VSInput_0 input_0) : SV_TARGET\n\x7b\n    return float4(input_0.uv_0, 0.0f, 1.0f);\n\x7d\n"

/-- An artifact whose final return's arguments are themselves nested calls
containing commas. -/
def nestedReturnArtifact : String :=
  "float4 fragmentMain(VSInput_0 input_0) : SV_TARGET\n\x7b\n    return float4(lerp(a, b, t1), clamp(x, 0.0, 1.0), 0.5, 1.0);\n\x7d\n"

/-- An artifact with two `return float4(` occurrences, the second being the
final one. -/
def multiReturnArtifact : String :=
  "float4 fragmentMain(VSInput_0 input_0) : SV_TARGET\n\x7b\n    if (c > 0.5) return float4(a, b, c, 1.0);\n    return float4(d, e, f, 1.0);\n\x7d\n"

/-- A small WGSL artifact with mangled names. -/
def wgslSampleArtifact : String :=
  "  var t = globalParams_0.uTime_0 + _S1;\n  var u = input_0.uv;\n"

/-- A small Metal artifact with mangled names. -/
def metalSampleArtifact : String :=
  "  float t = globalParams_0->uFrame_0 + _S2;\n"

/-! ## Helper lemmas about `parseSlangErrors` -/

/-- Each pushed diagnostic adds exactly one entry per matching line: no
matched diagnostic is ever dropped. -/
theorem parseSlang_len (off : Int) (ls : List String) :
    ∀ acc : List SlangDiag,
      (ls.foldl (parseSlangStep off) acc).length
        = acc.length + (ls.filter (fun l => (slangDiagLine l).isSome)).length := by
  induction ls with
  | nil => intro acc; simp
  | cons l ls ih =>
    intro acc
    simp only [List.foldl, List.filter]
    cases h : slangDiagLine l with
    | none => simp [parseSlangStep, h, ih]
    | some v =>
      obtain ⟨raw, sev, codeStr, msg⟩ := v
      simp [parseSlangStep, h, ih]
      omega

/-- Every diagnostic accumulated by the fold has a positive line number. -/
theorem parseSlang_pos (off : Int) (ls : List String) :
    ∀ acc : List SlangDiag, (∀ d ∈ acc, 0 < d.line) →
      ∀ d ∈ ls.foldl (parseSlangStep off) acc, 0 < d.line := by
  induction ls with
  | nil => intro acc hacc; simpa using hacc
  | cons l ls ih =>
    intro acc hacc
    refine ih _ ?_
    intro d hd
    simp only [parseSlangStep] at hd
    cases h : slangDiagLine l with
    | none => rw [h] at hd; exact hacc d hd
    | some v =>
      obtain ⟨raw, sev, codeStr, msg⟩ := v
      rw [h] at hd
      simp only [List.mem_append, List.mem_singleton] at hd
      rcases hd with hd | hd
      · exact hacc d hd
      · subst hd
        dsimp only
        split <;> omega

/-! ## C1 -/

/-- C1 counterexample: for the stderr line `(5): error 100: bad` under offset
36 the remapped difference is 5 - 36 = -31 ≤ 0, and `parseSlangErrors` emits
the diagnostic with the concrete line number 1 — not with an "unknown"
marker as the claim states.  (The glslang branch, by contrast, does print
`?`; see the amended theorem.) -/
theorem c1_counterexample :
    parseSlangErrors "(5): error 100: bad" 36
      = [{ line := 1, type := "error", code := "100", message := "bad" }] ∧
    (5 : Int) - 36 ≤ 0 := by
  exact ⟨by decide, by decide⟩

/-- C1 (amended): every diagnostic parsed by `parseSlangErrors` carries the
tool-reported line minus the offset when that difference is positive and is
otherwise clamped to line 1 (so the reported line is always ≥ 1 and the
diagnostic is never dropped: the output has exactly one entry per matching
stderr line); only the glslang branch of `/api/convert` reports a
non-positive difference as `?`. -/
theorem c1_line_remap_behavior :
    (∀ stderr off, ∀ d ∈ parseSlangErrors stderr off, 0 < d.line) ∧
    (∀ stderr off, (parseSlangErrors stderr off).length
        = ((splitNl stderr).filter (fun l => (slangDiagLine l).isSome)).length) ∧
    adjustGlslangErrorMsg "ERROR: 0:5: bad thing" = "GLSL Error - Line ?: bad thing" ∧
    adjustGlslangErrorMsg "ERROR: 0:40: bad thing" = "GLSL Error - Line 9: bad thing" := by
  refine ⟨?_, ?_, by decide, by decide⟩
  · intro stderr off
    exact parseSlang_pos off (splitNl stderr) [] (by simp)
  · intro stderr off
    simpa using parseSlang_len off (splitNl stderr) []

/-- Witness for `c1_line_remap_behavior` at a concrete parsed diagnostic. -/
theorem c1_line_remap_behavior_witness :
    0 < (SlangDiag.mk 1 "error" "100" "bad").line :=
  c1_line_remap_behavior.1 "(5): error 100: bad" 36
    (SlangDiag.mk 1 "error" "100" "bad") (by decide)

/-! ## C2 -/

/-- C2 (code bug): the material-library wrapper has 34 newline-terminated
lines before the interpolated user code (user code starts on wrapped line
35), but the handler remaps diagnostics with offset 36; the ShaderToy wrapper
(28 preceding lines, offset 28) is consistent.  Consequence shown on a
concrete run: user line 3 of a material-mode fragment sits on wrapped line
37, its diagnostic is reported at line 1 under the implemented offset 36,
while the by-construction offset 34 would report the correct line 3. -/
theorem c2_material_offset_mismatch :
    newlineCount slangMaterialPre = 34 ∧
    lineOffsetFor "materialLibrary" = 36 ∧
    newlineCount slangShaderToyPre = 28 ∧
    lineOffsetFor "shaderToy" = 28 ∧
    lineAt (wrapUserCodeForSlang "a\nb\nbad") 37 = some "bad" ∧
    parseSlangErrors "(37): error 1: x" (lineOffsetFor "materialLibrary")
      = [{ line := 1, type := "error", code := "1", message := "x" }] ∧
    parseSlangErrors "(37): error 1: x" 34
      = [{ line := 3, type := "error", code := "1", message := "x" }] := by
  exact ⟨by decide, by decide, by decide, by decide, by decide, by decide, by decide⟩

/-! ## C3 -/

/-- C3 counterexample: an empty `sourceCode` does not produce a Success — the
guard `if (!source)` treats the empty string as missing and returns an
immediate 400 with no effects (no workspace, no wrapping, no compile). -/
theorem c3_counterexample :
    (slangCompileModel ⟨"", "hlsl", "materialLibrary", "fragmentMain", "fragment", false⟩
        ⟨ToolOutcome.ok, ToolOutcome.ok, [], ""⟩).1 = [] ∧
    (slangCompileModel ⟨"", "hlsl", "materialLibrary", "fragmentMain", "fragment", false⟩
        ⟨ToolOutcome.ok, ToolOutcome.ok, [], ""⟩).2.success = false ∧
    (slangCompileModel ⟨"", "hlsl", "materialLibrary", "fragmentMain", "fragment", false⟩
        ⟨ToolOutcome.ok, ToolOutcome.ok, [], ""⟩).2.error
      = some "No source code provided" := by
  exact ⟨by decide, by decide, by decide⟩

/-- C3 (amended): for every target, mode and oracle, an empty source is
rejected by both endpoints with an immediate 400 error response and an empty
effect list — the wrapper is never invoked and the pipeline never runs. -/
theorem c3_empty_source_rejected (t m e st sh md : String) (fe ex : Bool)
    (orc : SlangOracles) (g : ToolOutcome) (sp : Except String String) :
    slangCompileModel ⟨"", t, m, e, st, fe⟩ orc
      = ([], { status := 400, success := false, error := some "No source code provided",
               errors := [], code := none, target := none, mode := none, stage := none }) ∧
    convertModel ⟨"", sh, md, ex⟩ g sp
      = ([], { status := 400, success := false, error := some "No GLSL code provided",
               stage := none, hlsl := none }) := by
  exact ⟨rfl, rfl⟩

/-! ## C4 -/

/-- C4 counterexample: with `forExport = false` and target `unrealHlsl`, a
successful compile returns the raw HLSL artifact unchanged, although the
Unreal normalizer is not a no-op on it — so the normalizer is NOT applied
regardless of the clean-export flag. -/
theorem c4_counterexample :
    (slangCompileModel ⟨"x", "unrealHlsl", "materialLibrary", "fragmentMain", "fragment", false⟩
        ⟨ToolOutcome.ok, ToolOutcome.ok, [], unrealSampleArtifact⟩).2.code
      = some unrealSampleArtifact ∧
    cleanupSlangHlslForUnreal unrealSampleArtifact ≠ unrealSampleArtifact := by
  exact ⟨by decide, by decide⟩

/-- C4 (amended): for a successful `unrealHlsl` compile the Unreal normalizer
is applied exactly when `forExport` is set; with the flag unset the raw HLSL
text is returned unchanged. -/
theorem c4_export_flag_gates_unreal_cleanup (src mode ep st : String) (fe : Bool)
    (orc : SlangOracles) (hs : ¬ src = "") (ho : orc.slangc = ToolOutcome.ok) :
    (slangCompileModel ⟨src, "unrealHlsl", mode, ep, st, fe⟩ orc).2
      = { status := 200, success := true, error := none, errors := [],
          code := some (if fe then cleanupSlangHlslForUnreal orc.outputText
                        else orc.outputText),
          target := some "unrealHlsl", mode := some mode, stage := none } := by
  obtain ⟨sc, spc, bin, txt⟩ := orc
  cases sc with
  | fail e => exact absurd ho (by simp)
  | ok =>
    simp [slangCompileModel, validTargets, hs, applyExportCleanup, outputExtensionFor]

/-- Witness for `c4_export_flag_gates_unreal_cleanup`. -/
theorem c4_export_flag_gates_unreal_cleanup_witness :
    (slangCompileModel ⟨"x", "unrealHlsl", "materialLibrary", "fragmentMain", "fragment", true⟩
        ⟨ToolOutcome.ok, ToolOutcome.ok, [], unrealSampleArtifact⟩).2
      = { status := 200, success := true, error := none, errors := [],
          code := some (if true then cleanupSlangHlslForUnreal unrealSampleArtifact
                        else unrealSampleArtifact),
          target := some "unrealHlsl", mode := some "materialLibrary", stage := none } :=
  c4_export_flag_gates_unreal_cleanup "x" "materialLibrary" "fragmentMain" "fragment" true
    ⟨ToolOutcome.ok, ToolOutcome.ok, [], unrealSampleArtifact⟩ (by decide) rfl

/-! ## C5 -/

/-- C5 counterexample: the Unreal normalizer is not idempotent on a producible
artifact — its own output no longer contains a `fragmentMain` definition, so
a second application changes the text again. -/
theorem c5_counterexample :
    cleanupSlangHlslForUnreal (cleanupSlangHlslForUnreal unrealSampleArtifact)
      ≠ cleanupSlangHlslForUnreal unrealSampleArtifact := by
  decide

/-- C5 (amended): not every per-target normalizer is idempotent.  The Unreal
normalizer applied to its own output prepends an extraction-error comment
(second application = error line plus first application, verbatim), while the
WGSL and Metal normalizers are idempotent on representative mangled
artifacts. -/
theorem c5_unreal_normalizer_not_idempotent :
    cleanupSlangHlslForUnreal (cleanupSlangHlslForUnreal unrealSampleArtifact)
      = "// Error: Could not extract function body\n"
          ++ cleanupSlangHlslForUnreal unrealSampleArtifact ∧
    cleanupSlangWgslOutput (cleanupSlangWgslOutput wgslSampleArtifact)
      = cleanupSlangWgslOutput wgslSampleArtifact ∧
    cleanupSlangMetalOutput (cleanupSlangMetalOutput metalSampleArtifact)
      = cleanupSlangMetalOutput metalSampleArtifact := by
  exact ⟨by decide, by decide, by decide⟩

/-! ## C6 -/

/-- C6 counterexample: a slangc failure whose stderr contains no parseable
diagnostic line produces a Failure response whose structured `errors` list is
empty — the caller does receive an empty diagnostic list on failure (the raw
text survives only in the flat `error` field). -/
theorem c6_counterexample :
    (slangCompileModel ⟨"x", "hlsl", "materialLibrary", "fragmentMain", "fragment", false⟩
        ⟨ToolOutcome.fail "Segmentation fault", ToolOutcome.ok, [], ""⟩).2.errors = [] ∧
    (slangCompileModel ⟨"x", "hlsl", "materialLibrary", "fragmentMain", "fragment", false⟩
        ⟨ToolOutcome.fail "Segmentation fault", ToolOutcome.ok, [], ""⟩).2.status = 400 := by
  exact ⟨by decide, by decide⟩

/-- C6 (amended): when no diagnostic line can be parsed, the Failure response
carries the raw stderr verbatim in its `error` field and an empty structured
list — the tool-reported problem is preserved as flat text, not as a
diagnostic record with an "unknown" line. -/
theorem c6_unparsed_stderr_preserved (stderr : String) (off : Int)
    (h : parseSlangErrors stderr off = []) :
    (slangFailResponse stderr off).error = some stderr ∧
    (slangFailResponse stderr off).errors = [] ∧
    (slangFailResponse stderr off).success = false := by
  simp [slangFailResponse, h]

/-- Witness for `c6_unparsed_stderr_preserved`. -/
theorem c6_unparsed_stderr_preserved_witness :
    (slangFailResponse "tool crashed" 36).error = some "tool crashed" ∧
    (slangFailResponse "tool crashed" 36).errors = [] ∧
    (slangFailResponse "tool crashed" 36).success = false :=
  c6_unparsed_stderr_preserved "tool crashed" 36 (by decide)

/-! ## C7 -/

/-- C7 counterexample: `float3(abs(x))` is a single-argument constructor
call, yet the expansion does not produce the explicit broadcast form — the
`[^,)]+` capture stops at the first closing parenthesis and the rewrite
mangles the call. -/
theorem c7_counterexample :
    applyUnrealTransforms "float3(abs(x))" ≠ "float3(abs(x), abs(x), abs(x))" ∧
    applyUnrealTransforms "float3(abs(x))" = "float3(abs(x, abs(x, abs(x))" := by
  exact ⟨by decide, by decide⟩

/-- C7 (amended): the expansion behaves as claimed only for single arguments
containing no comma and no parenthesis: such calls are broadcast
(`float3(a)` to `float3(a, a, a)`, analogously for float2/float4, with
whitespace trimmed), calls already supplying one argument per component are
left unchanged, and a word boundary protects longer identifiers; but a
single argument containing a nested call is split at the first closing
parenthesis and mangled. -/
theorem c7_expansion_on_flat_args :
    applyUnrealTransforms "float3(a)" = "float3(a, a, a)" ∧
    applyUnrealTransforms "float2(x)" = "float2(x, x)" ∧
    applyUnrealTransforms "float4( y )" = "float4(y, y, y, y)" ∧
    applyUnrealTransforms "float3(a, b, c)" = "float3(a, b, c)" ∧
    applyUnrealTransforms "float2(u, v)" = "float2(u, v)" ∧
    applyUnrealTransforms "float4(r, g, b, a)" = "float4(r, g, b, a)" ∧
    applyUnrealTransforms "myfloat3(a)" = "myfloat3(a)" ∧
    applyUnrealTransforms "float3(abs(x))" = "float3(abs(x, abs(x, abs(x))" := by
  exact ⟨by decide, by decide, by decide, by decide, by decide, by decide, by decide,
    by decide⟩

/-! ## C8 -/

/-- C8 counterexample: in an artifact whose body ends in `return float4(d, e,
f, 1.0);` but also contains an earlier `return float4(...)`, only the first
occurrence is rewritten; the final return survives as internal marker text
`__RETURN_FLOAT4_START__(...)` and is not turned into a three-component
return. -/
theorem c8_counterexample :
    hasSub (cleanupSlangHlslForUnreal multiReturnArtifact) "__RETURN_FLOAT4_START__" = true ∧
    hasSub (cleanupSlangHlslForUnreal multiReturnArtifact) "return d, e, f" = false := by
  exact ⟨by decide, by decide⟩

/-- C8 (amended): for an artifact containing exactly one `return float4(`
the rewrite finds the matching closing parenthesis by nested-parenthesis
counting and splits at the last depth-zero comma, so nested call arguments
with their own commas are kept intact and the trailing alpha component is
dropped; with several `return float4(` occurrences only the first is
rewritten and the rest degrade to marker text. -/
theorem c8_nested_args_kept_intact :
    hasSub (cleanupSlangHlslForUnreal nestedReturnArtifact)
      "return lerp(a, b, t1), clamp(x, 0.0, 1.0), 0.5;" = true ∧
    hasSub (cleanupSlangHlslForUnreal nestedReturnArtifact) "0.5, 1.0" = false ∧
    hasSub (cleanupSlangHlslForUnreal nestedReturnArtifact) "__RETURN_FLOAT4_START__" = false := by
  exact ⟨by decide, by decide, by decide⟩

/-! ## C9 -/

/-- C9 (confirmed): a request whose target is outside the supported set is
answered with an immediate 400 and an empty effect list: no workspace is
created and no subprocess is spawned. -/
theorem c9_invalid_target_no_effects (req : SlangReq) (orc : SlangOracles)
    (hs : ¬ req.source = "") (ht : validTargets.contains req.target = false) :
    slangCompileModel req orc
      = ([], { status := 400, success := false,
               error := some ("Invalid target: " ++ req.target ++ ". Valid targets: "
                 ++ String.intercalate ", " validTargets),
               errors := [], code := none, target := none, mode := none,
               stage := none }) := by
  obtain ⟨src, tgt, mode, ep, st, fe⟩ := req
  simp only [slangCompileModel]
  rw [if_neg hs, ht]
  simp

/-- Witness for `c9_invalid_target_no_effects` at the unsupported target
`msl`. -/
theorem c9_invalid_target_no_effects_witness :
    slangCompileModel ⟨"x", "msl", "materialLibrary", "fragmentMain", "fragment", false⟩
        ⟨ToolOutcome.ok, ToolOutcome.ok, [], ""⟩
      = ([], { status := 400, success := false,
               error := some ("Invalid target: " ++ "msl" ++ ". Valid targets: "
                 ++ String.intercalate ", " validTargets),
               errors := [], code := none, target := none, mode := none,
               stage := none }) :=
  c9_invalid_target_no_effects
    ⟨"x", "msl", "materialLibrary", "fragmentMain", "fragment", false⟩
    ⟨ToolOutcome.ok, ToolOutcome.ok, [], ""⟩ (by decide) (by decide)

/-! ## C10 -/

/-- C10 (confirmed): for target `spirv` a successful run always returns the
base64 encoding of the raw binary artifact; the response does not depend on
the `forExport` flag and no normalizer is applied. -/
theorem c10_spirv_base64_ignores_export (src mode ep st : String) (fe : Bool)
    (orc : SlangOracles) (hs : ¬ src = "") (ho : orc.slangc = ToolOutcome.ok) :
    (slangCompileModel ⟨src, "spirv", mode, ep, st, fe⟩ orc).2
      = { status := 200, success := true, error := none, errors := [],
          code := some (⟨base64Encode orc.outputBinary⟩ : String),
          target := some "spirv", mode := some mode, stage := none } := by
  obtain ⟨sc, spc, bin, txt⟩ := orc
  cases sc with
  | fail e => exact absurd ho (by simp)
  | ok =>
    simp [slangCompileModel, validTargets, hs, outputExtensionFor]

/-- Witness for `c10_spirv_base64_ignores_export`: the bytes of `Man` encode
to `TWFu`, independently of the export flag. -/
theorem c10_spirv_base64_ignores_export_witness :
    (slangCompileModel ⟨"x", "spirv", "materialLibrary", "fragmentMain", "fragment", true⟩
        ⟨ToolOutcome.ok, ToolOutcome.ok, [77, 97, 110], ""⟩).2
      = { status := 200, success := true, error := none, errors := [],
          code := some (⟨base64Encode [77, 97, 110]⟩ : String),
          target := some "spirv", mode := some "materialLibrary", stage := none } :=
  c10_spirv_base64_ignores_export "x" "materialLibrary" "fragmentMain" "fragment" true
    ⟨ToolOutcome.ok, ToolOutcome.ok, [77, 97, 110], ""⟩ (by decide) rfl

end OML
